import Mathlib

/-!
Verification of the proxy-toolkit repository: a shallow embedding of the
environment-detection module (`proxy_toolkit/port_proxy.py`), the port
registry server (`server.py`), and the spec-described tunnel validation,
together with theorems settling the specification claims.

Python strings are modelled as Lean `String`/`List Char`; the effectful
calls (OS introspection via psutil, HTTP round trips, wall-clock time) are
modelled as explicit oracle inputs recording what the call returned.
-/

namespace ProxyToolkit

/-! ## Python string primitives -/

/-- Embedding of Python `s.split(sep)` for a one-character separator:
splits at every occurrence, keeping empty pieces. -/
def splitOnChar (sep : Char) : List Char → List (List Char)
  | [] => [[]]
  | c :: cs =>
    let r := splitOnChar sep cs
    if c = sep then [] :: r
    else
      match r with
      | [] => [[c]]
      | h :: t => (c :: h) :: t

/-- Embedding of Python `s.replace(tgt, rep)` on character lists, for a
non-empty `tgt`: scans left to right, replacing each non-overlapping
occurrence; scanning resumes after the replaced occurrence in the original
string.  (Python's special case for an empty pattern is never exercised by
the code, whose pattern is the literal port token.) -/
def replaceL (tgt rep : List Char) : List Char → List Char
  | [] => []
  | c :: cs =>
    if h : tgt ≠ [] ∧ tgt.isPrefixOf (c :: cs) then
      rep ++ replaceL tgt rep ((c :: cs).drop tgt.length)
    else
      c :: replaceL tgt rep cs
termination_by s => s.length
decreasing_by
  · simp only [List.length_drop, List.length_cons]
    have h1 : 0 < tgt.length := List.length_pos.mpr h.1
    omega
  · simp only [List.length_cons]
    omega

/-- Embedding of Python `s.replace(tgt, rep)` on `String`. -/
def pyReplace (s tgt rep : String) : String :=
  ⟨replaceL tgt.data rep.data s.data⟩

/-- Embedding of Python `s.startswith(pre)`. -/
def pyStartsWith (s pre : String) : Bool :=
  pre.data.isPrefixOf s.data

/-- Whitespace characters stripped by Python `str.strip()` (the ASCII
ones; the code never feeds other whitespace to `int`). -/
def pyIsSpace (c : Char) : Bool :=
  c = ' ' || c = '\t' || c = '\n' || c = '\r' || c = '\x0b' || c = '\x0c'

/-- Embedding of Python `s.strip()` on character lists. -/
def pyStrip (cs : List Char) : List Char :=
  (cs.dropWhile pyIsSpace).reverse.dropWhile pyIsSpace |>.reverse

/-- Decides whether a character is an ASCII decimal digit, as Python `int`
accepts in its digit run. -/
def isAsciiDigit (c : Char) : Bool := '0' ≤ c && c ≤ '9'

/-- Embedding of Python `int(s)` for decimal strings, returning `none`
where Python raises `ValueError`: surrounding whitespace is stripped, an
optional single sign is allowed, and the remainder must be a non-empty run
of ASCII digits.  (Grouping underscores and non-ASCII digit scripts are
not exercised by the claims and are not modelled.) -/
def pyIntParse (s : String) : Option Int :=
  let cs := pyStrip s.data
  let signDigits : Int × List Char :=
    match cs with
    | '-' :: rest => (-1, rest)
    | '+' :: rest => (1, rest)
    | _ => (1, cs)
  let sign := signDigits.1
  let digits := signDigits.2
  if digits ≠ [] ∧ digits.all isAsciiDigit then
    some (sign * (Int.ofNat (digits.foldl (fun acc c => 10 * acc + (c.toNat - '0'.toNat)) 0)))
  else
    none

/-! ## urlparse path extraction

Embedding of the part of Python `urllib.parse.urlparse` that
`get_path_length` uses: for a URL of shape `scheme://netloc/path?query`
(or with a fragment), return the path component.  The netloc extends to
the first `/`, `?` or `#`; the path then extends to the first `?` or `#`. -/

/-- Path component of a `http://`/`https://` URL, as `urlparse(url).path`
computes it. -/
def urlparsePath (url : String) : String :=
  let rest : List Char :=
    if pyStartsWith url "http://" then url.data.drop 7
    else if pyStartsWith url "https://" then url.data.drop 8
    else url.data
  let afterNetloc := rest.dropWhile (fun c => c ≠ '/' && c ≠ '?' && c ≠ '#')
  ⟨afterNetloc.takeWhile (fun c => c ≠ '?' && c ≠ '#')⟩

/-! ## port_proxy.py : template selection -/

/-- Embedding of the inner helper `get_path_length` of
`detect_service_config`: number of non-empty `/`-delimited segments of the
template's path component (the whole string for a relative template, the
urlparse path for an absolute one). -/
def get_path_length (url_template : String) : Nat :=
  let parsed_path :=
    if ¬ (pyStartsWith url_template "http://" ∨ pyStartsWith url_template "https://") then
      url_template
    else
      urlparsePath url_template
  ((splitOnChar '/' parsed_path.data).filter (· ≠ [])).length

/-- Embedding of Python `min(lst, key=k)` on a non-empty list: iterates
left to right, replacing the current best only on a strictly smaller key,
so the first element attaining the minimum is kept. -/
def min_by_key (k : String → Nat) : List String → String
  | [] => ""
  | x :: xs => xs.foldl (fun best y => if k y < k best then y else best) x

/-- Follows the spec's words for template selection: the first candidate
discovered whose path has the fewest non-empty segments ("select the
candidate whose path component has the fewest non-empty `/`-delimited
segments; ties keep the first discovered").  Stated recursively: keep the
head whenever its key is no larger than the best of the tail. -/
def firstMinByKey (k : String → Nat) : List String → Option String
  | [] => none
  | x :: xs =>
    match firstMinByKey k xs with
    | none => some x
    | some m => if k x ≤ k m then some x else some m

/-! ## Environment model

The effectful calls of `proxy_toolkit/port_proxy.py` (environment
variables, psutil process/connection enumeration, the loopback HTTP round
trip through a Jupyter server's proxy path, reading VSCODE_PROXY_URI from
a code-server process) are modelled as an oracle recording what each call
returns in the current environment state. -/

/-- One environment state as observed by `detect_service_config` and its
helpers. -/
structure Env where
  /-- Value of the STUDIO_MODEL_API_URL_PREFIX environment variable,
  `none` when the variable is absent. -/
  studioApiUrl : Option String
  /-- Value of the JUPYTERHUB_SERVICE_PREFIX environment variable, `none`
  when the variable is absent. -/
  hubServicePath : Option String
  /-- Whether the psutil import succeeds. -/
  psutilAvailable : Bool
  /-- Whether the psutil connection scan finds a listening socket whose
  owning process command line contains the substring coded for the
  notebook server. -/
  jupyterLabListening : Bool
  /-- Whether the psutil connection scan finds a listening socket whose
  owning process command line contains the code-server substring. -/
  codeServerListening : Bool
  /-- Base URL of the first registered Jupyter server whose proxy path
  answered the loopback round trip with status 200; `none` when no server
  is registered or every round trip failed. -/
  jupyterRoundTrip : Option String
  /-- Value of VSCODE_PROXY_URI read from a candidate code-server
  process; `none` when not found, the process vanished, or access was
  denied. -/
  vscodeProxyUri : Option String
  deriving DecidableEq, Repr

/-- The literal port-substitution token of the templates. -/
def portToken : String := "\x7b\x7bport\x7d\x7d"

/-! ## port_proxy.py : detection -/

/-- Embedding of `check_jupyter_proxy` from `proxy_toolkit/port_proxy.py`.
In the AI Studio branch the source evaluates
`os.environ["JUPYTERHUB_SERVICE_PREFIX"]` unconditionally, which raises an
uncaught `KeyError` when that variable is absent; the error side of
`Except` models an exception escaping the function. -/
def check_jupyter_proxy (env : Env) : Except String String :=
  match env.studioApiUrl with
  | some protocol_host =>
    match env.hubServicePath with
    | none => .error "KeyError: JUPYTERHUB_SERVICE_PREFIX"
    | some svc =>
      let path_template := svc ++ "gradio/" ++ portToken ++ "/"
      if protocol_host ≠ "" then .ok (protocol_host ++ path_template)
      else .ok ""
  | none =>
    match env.jupyterRoundTrip with
    | some base_url => .ok (base_url ++ "proxy/" ++ portToken ++ "/")
    | none => .ok ""

/-- Embedding of `check_code_server_proxy`: returns the VSCODE_PROXY_URI
value found on a candidate process, or the empty string when psutil is
unavailable, no candidate exists, or every per-process failure was
swallowed. -/
def check_code_server_proxy (env : Env) : String :=
  if ¬ env.psutilAvailable then ""
  else (env.vscodeProxyUri).getD ""

/-- Embedding of the detection body of `detect_service_config` (the part
after the cache check): scan connections for candidate services, invoke
the per-service checks, and select the template with the fewest path
segments.  Only `ImportError` is caught by the source's `try`, so an
exception from `check_jupyter_proxy` propagates (error side). -/
def detectOnce (env : Env) : Except String String :=
  if ¬ env.psutilAvailable then .ok ""
  else
    (if env.jupyterLabListening then
        (check_jupyter_proxy env).map (fun t => if t ≠ "" then [t] else [])
      else .ok []).map
      (fun templates =>
        let templates :=
          if env.codeServerListening then
            let t := check_code_server_proxy env
            if t ≠ "" ∧ t ∉ templates then templates ++ [t] else templates
          else templates
        match templates with
        | [] => ""
        | x :: xs => min_by_key get_path_length (x :: xs))

/-- Embedding of `detect_service_config`, with the process-wide cache
passed and returned explicitly.  With caching on and a populated cache
the stored value is returned; otherwise detection runs and its result is
stored only when caching is on.  When detection raises, the exception
propagates before the cache assignment is reached. -/
def detect_service_config (use_cache : Bool) (cache : Option String) (env : Env) :
    Except String (String × Option String) :=
  match use_cache, cache with
  | true, some c => .ok (c, some c)
  | _, _ =>
    (detectOnce env).map (fun r => (r, if use_cache then some r else cache))

/-- Embedding of `generate_proxy_url`: fetch the (cached) template and
substitute every occurrence of the port token with the decimal rendering
of the port; empty template yields the empty string.  The AI Studio
config-file write is an external side effect with no influence on the
returned value and is not modelled. -/
def generate_proxy_url (port : Int) (cache : Option String) (env : Env) :
    Except String (String × Option String) :=
  (detect_service_config true cache env).map
    (fun rc =>
      let url_template := rc.1
      if url_template ≠ "" then
        (pyReplace url_template portToken (toString port), rc.2)
      else
        ("", rc.2))

/-! ## server.py : port registry -/

/-- Embedding of the `PortInfo` record of `server.py`. -/
structure PortInfo where
  port : Int
  is_listening : Bool
  process_name : Option String
  process_pid : Option Int
  process_cmdline : Option String
  last_check : Nat
  proxy_url : Option String
  deriving DecidableEq, Repr

/-- Constructor defaults of `PortInfo.__init__`. -/
def PortInfo.init (port : Int) : PortInfo :=
  { port := port
    is_listening := false
    process_name := none
    process_pid := none
    process_cmdline := none
    last_check := 0
    proxy_url := none }

/-- Process information resolved for a listening port by
`_get_port_process`. -/
structure ProcInfo where
  pid : Int
  name : String
  cmdline : String
  deriving DecidableEq, Repr

/-- Oracle for one registry refresh: what the effectful calls inside
`_update_port_info` return on this occasion (`time.time()`,
`_is_port_listening`, `_get_port_process`, `generate_proxy_url`). -/
structure RefreshOracle where
  now : Nat
  listening : Bool
  procInfo : Option ProcInfo
  proxyUrl : String
  deriving DecidableEq, Repr

/-- Embedding of `PortServer._update_port_info`: throttled no-op within 5
seconds of the last check, otherwise re-probe liveness, re-resolve (or
clear) the owner fields, and recompute the proxy URL. -/
def _update_port_info (o : RefreshOracle) (pi : PortInfo) : PortInfo :=
  if o.now - pi.last_check < 5 then pi
  else
    let pi := { pi with last_check := o.now, is_listening := o.listening }
    let pi :=
      if o.listening then
        match o.procInfo with
        | some info =>
          { pi with
            process_pid := some info.pid
            process_name := some info.name
            process_cmdline := some info.cmdline }
        | none =>
          { pi with process_pid := none, process_name := none, process_cmdline := none }
      else
        { pi with process_pid := none, process_name := none, process_cmdline := none }
    { pi with proxy_url := some o.proxyUrl }

/-- The port registry `PortServer.port_cache`, a Python dict modelled as
an insertion-ordered association list with unique keys. -/
abbrev PortCache := List (Int × PortInfo)

/-- Dict key lookup. -/
def cacheLookup (p : Int) : PortCache → Option PortInfo
  | [] => none
  | (q, v) :: rest => if q = p then some v else cacheLookup p rest

/-- Dict assignment: overwrite in place when the key exists (keeping its
position, as Python dicts do), otherwise append at the end. -/
def cacheSet (p : Int) (v : PortInfo) : PortCache → PortCache
  | [] => [(p, v)]
  | (q, w) :: rest => if q = p then (p, v) :: rest else (q, w) :: cacheSet p v rest

/-- Embedding of `PortServer.port_info_handler` on GET /api/port/(port):
parse the path segment with `int` (ValueError gives status 400), create a
default record on first reference, refresh it, and answer 200 with the
record.  The result is (status, response record, new registry state). -/
def port_info_handler (portStr : String) (o : RefreshOracle) (cache : PortCache) :
    Nat × Option PortInfo × PortCache :=
  match pyIntParse portStr with
  | none => (400, none, cache)
  | some port =>
    match cacheLookup port cache with
    | some pi =>
      let pi' := _update_port_info o pi
      (200, some pi', cacheSet port pi' cache)
    | none =>
      let pi' := _update_port_info o (PortInfo.init port)
      (200, some pi', cacheSet port pi' cache)

/-- A sequence of GET /api/port/(port) calls folded over the registry
state, each call observing the same refresh oracle. -/
def runCalls (o : RefreshOracle) (calls : List String) (cache : PortCache) : PortCache :=
  calls.foldl (fun c s => (port_info_handler s o c).2.2) cache

/-! ## TunnelProxy validation -/

/-- Modelled from the spec: the request-validation step of TunnelProxy
(the tunnel handler's source, `proxy_toolkit/server.py`, is not among the
provided files; only the spec describes it).  Per the spec, the port
parameter must parse as an integer in 1..65535 and the u subpath
parameter is mandatory and must start with a slash; any violation is a
client-input error answered with status 400. -/
def tunnel_validate (portStr : String) (u : Option String) : Nat :=
  match pyIntParse portStr with
  | none => 400
  | some p =>
    if p < 1 ∨ 65535 < p then 400
    else
      match u with
      | none => 400
      | some s => if pyStartsWith s "/" then 200 else 400

/-! ## Concrete instances used by the theorems -/

/-- A fixed refresh oracle: probe time 1000, port not listening, no
owner resolved, empty proxy URL. -/
def oracle0 : RefreshOracle :=
  { now := 1000, listening := false, procInfo := none, proxyUrl := "" }

/-- Environment without psutil and with nothing discoverable. -/
def envNoPsutil : Env :=
  { studioApiUrl := none, hubServicePath := none, psutilAvailable := false,
    jupyterLabListening := false, codeServerListening := false,
    jupyterRoundTrip := none, vscodeProxyUri := none }

/-- Environment with the AI Studio marker variable set but the companion
JUPYTERHUB_SERVICE_PREFIX variable absent, while a notebook-server
process is listening. -/
def envStudioNoHub : Env :=
  { studioApiUrl := some "https://aistudio.example", hubServicePath := none,
    psutilAvailable := true, jupyterLabListening := true,
    codeServerListening := false, jupyterRoundTrip := none,
    vscodeProxyUri := none }

/-- Environment where only a code-server candidate is discoverable. -/
def envCodeServer : Env :=
  { studioApiUrl := none, hubServicePath := none, psutilAvailable := true,
    jupyterLabListening := false, codeServerListening := true,
    jupyterRoundTrip := none,
    vscodeProxyUri := some "code/\x7b\x7bport\x7d\x7d/" }

/-- The spec's token-substitution example template. -/
def exTmpl : String := "a/\x7b\x7bport\x7d\x7d/b/\x7b\x7bport\x7d\x7d"

/-- First candidate of the spec's selection example. -/
def t1ex : String := "http://h/hub/user/x/proxy/\x7b\x7bport\x7d\x7d/"

/-- Second candidate of the spec's selection example. -/
def t2ex : String := "relative/proxy/\x7b\x7bport\x7d\x7d/"

/-- A registry record last refreshed at time 998, so that a call at time
1000 falls inside the 5-second throttle window. -/
def throttledRecord : PortInfo :=
  { PortInfo.init 8080 with last_check := 998 }

/-! ## Helper lemmas: template selection -/

/-- Folding one comparison into the head preserves the first-minimum of
the whole list. -/
theorem firstMin_step (k : String → Nat) (x y : String) (ys : List String) :
    firstMinByKey k (x :: y :: ys) =
      firstMinByKey k ((if k y < k x then y else x) :: ys) := by
  rcases hm : firstMinByKey k ys with _ | m
  · simp only [firstMinByKey, hm]
    split_ifs <;> simp_all <;> omega
  · simp only [firstMinByKey, hm]
    split_ifs <;> simp_all <;> omega

/-- The first-minimum of a non-empty list exists. -/
theorem firstMin_cons_some (k : String → Nat) (x : String) (l : List String) :
    ∃ m, firstMinByKey k (x :: l) = some m := by
  simp only [firstMinByKey]
  rcases firstMinByKey k l with _ | m
  · exact ⟨x, rfl⟩
  · dsimp only
    split_ifs <;> exact ⟨_, rfl⟩

/-- The embedded Python min-with-key equals the spec's selection: the
first candidate attaining the fewest segments. -/
theorem min_by_key_eq_firstMin (k : String → Nat) :
    ∀ (l : List String) (x : String),
      min_by_key k (x :: l) = (firstMinByKey k (x :: l)).getD x := by
  intro l
  induction l with
  | nil => intro x; simp [min_by_key, firstMinByKey]
  | cons y ys ih =>
    intro x
    have h1 : min_by_key k (x :: y :: ys) =
        min_by_key k ((if k y < k x then y else x) :: ys) := by
      simp only [min_by_key, List.foldl]
    obtain ⟨m, hm⟩ := firstMin_cons_some k (if k y < k x then y else x) ys
    have h2 := firstMin_step k x y ys
    rw [h1, ih, hm, h2, hm]
    rfl

/-! ## Helper lemmas: port registry -/

/-- Lookup fails exactly on absent keys. -/
theorem cacheLookup_eq_none (p : Int) :
    ∀ c : PortCache, cacheLookup p c = none ↔ p ∉ c.map Prod.fst := by
  intro c
  induction c with
  | nil => simp [cacheLookup]
  | cons e rest ih =>
    obtain ⟨q, w⟩ := e
    by_cases hq : q = p
    · subst hq
      simp [cacheLookup]
    · simp only [cacheLookup, if_neg hq, List.map_cons, List.mem_cons, ih]
      constructor
      · intro h
        rintro (h1 | h1)
        · exact hq h1.symm
        · exact h h1
      · intro h h1
        exact h (Or.inr h1)

/-- Overwriting an existing key leaves the key sequence unchanged. -/
theorem cacheSet_keys_mem (p : Int) (v : PortInfo) :
    ∀ c : PortCache, p ∈ c.map Prod.fst →
      (cacheSet p v c).map Prod.fst = c.map Prod.fst := by
  intro c
  induction c with
  | nil => simp
  | cons e rest ih =>
    obtain ⟨q, w⟩ := e
    by_cases hq : q = p <;> intro hmem <;> simp [cacheSet, hq]
    apply ih
    rcases List.mem_cons.mp hmem with h | h
    · exact (hq h.symm).elim
    · exact h

/-- Inserting a fresh key appends it at the end, as a Python dict does. -/
theorem cacheSet_keys_not_mem (p : Int) (v : PortInfo) :
    ∀ c : PortCache, p ∉ c.map Prod.fst →
      (cacheSet p v c).map Prod.fst = c.map Prod.fst ++ [p] := by
  intro c
  induction c with
  | nil => simp [cacheSet]
  | cons e rest ih =>
    obtain ⟨q, w⟩ := e
    intro hmem
    simp only [List.map_cons, List.mem_cons] at hmem
    push_neg at hmem
    simp [cacheSet, Ne.symm hmem.1, ih hmem.2]

/-- Writing back the exact record a lookup returned is the identity. -/
theorem cacheSet_lookup_self (p : Int) (pi : PortInfo) :
    ∀ c : PortCache, cacheLookup p c = some pi → cacheSet p pi c = c := by
  intro c
  induction c with
  | nil => simp [cacheLookup]
  | cons e rest ih =>
    obtain ⟨q, w⟩ := e
    by_cases hq : q = p
    · subst hq
      intro h
      have hw : w = pi := by simpa [cacheLookup] using h
      simp [cacheSet, hw]
    · simp only [cacheLookup, if_neg hq, cacheSet]
      intro h
      simp [hq, ih h]

/-- A handler call on an unparseable segment leaves the key sequence
unchanged. -/
theorem handler_keys_none (s : String) (o : RefreshOracle) (c : PortCache)
    (hp : pyIntParse s = none) :
    ((port_info_handler s o c).2.2).map Prod.fst = c.map Prod.fst := by
  simp [port_info_handler, hp]

/-- A handler call on a parsed port keeps the key sequence, appending the
port only when it is new. -/
theorem handler_keys_some (s : String) (o : RefreshOracle) (c : PortCache) (p : Int)
    (hp : pyIntParse s = some p) :
    ((port_info_handler s o c).2.2).map Prod.fst =
      if p ∈ c.map Prod.fst then c.map Prod.fst else c.map Prod.fst ++ [p] := by
  rcases hl : cacheLookup p c with _ | pi
  · have hmem : p ∉ c.map Prod.fst := (cacheLookup_eq_none p c).mp hl
    simp [port_info_handler, hp, hl, cacheSet_keys_not_mem p _ c hmem, hmem]
  · have hmem : p ∈ c.map Prod.fst := by
      by_contra hn
      rw [(cacheLookup_eq_none p c).mpr hn] at hl
      exact Option.noConfusion hl
    simp [port_info_handler, hp, hl, cacheSet_keys_mem p _ c hmem, hmem]

/-- Registry-key invariant over any call sequence: keys stay duplicate
free and are exactly the starting keys plus every successfully parsed
port of the sequence.  In particular nothing is ever evicted. -/
theorem runCalls_keys (o : RefreshOracle) :
    ∀ (calls : List String) (c : PortCache),
      (c.map Prod.fst).Nodup →
        ((runCalls o calls c).map Prod.fst).Nodup ∧
        ∀ p : Int, p ∈ (runCalls o calls c).map Prod.fst ↔
          p ∈ c.map Prod.fst ∨ p ∈ calls.filterMap pyIntParse := by
  intro calls
  induction calls with
  | nil => intro c hc; simpa [runCalls] using hc
  | cons s rest ih =>
    intro c hc
    have hstep : runCalls o (s :: rest) c =
        runCalls o rest ((port_info_handler s o c).2.2) := by
      simp [runCalls]
    rcases hp : pyIntParse s with _ | p
    · have hk := handler_keys_none s o c hp
      have := ih ((port_info_handler s o c).2.2) (by rw [hk]; exact hc)
      rw [hstep]
      refine ⟨this.1, fun q => ?_⟩
      rw [this.2 q, hk, List.filterMap_cons, hp]
    · have hk := handler_keys_some s o c p hp
      by_cases hmem : p ∈ c.map Prod.fst
      · rw [if_pos hmem] at hk
        have := ih ((port_info_handler s o c).2.2) (by rw [hk]; exact hc)
        rw [hstep]
        refine ⟨this.1, fun q => ?_⟩
        rw [this.2 q, hk, List.filterMap_cons, hp]
        simp only [List.mem_cons]
        constructor
        · rintro (h | h)
          · exact Or.inl h
          · exact Or.inr (Or.inr h)
        · rintro (h | h | h)
          · exact Or.inl h
          · exact Or.inl (h ▸ hmem)
          · exact Or.inr h
      · rw [if_neg hmem] at hk
        have hnodup : (((port_info_handler s o c).2.2).map Prod.fst).Nodup := by
          rw [hk]
          exact List.Nodup.append hc (List.nodup_singleton p)
            (by simpa using fun h => hmem h)
        have := ih ((port_info_handler s o c).2.2) hnodup
        rw [hstep]
        refine ⟨this.1, fun q => ?_⟩
        rw [this.2 q, hk, List.filterMap_cons, hp]
        simp only [List.mem_append, List.mem_singleton, List.mem_cons]
        tauto

/-- A refresh never changes which port a record is for. -/
theorem update_preserves_port (o : RefreshOracle) (pi : PortInfo) :
    (_update_port_info o pi).port = pi.port := by
  by_cases h5 : o.now - pi.last_check < 5
  · simp [_update_port_info, h5]
  · cases hl : o.listening <;> cases hi : o.procInfo <;>
      simp [_update_port_info, h5, hl, hi]

/-- Substituting into the spec's example template hits every occurrence
of the port token, for an arbitrary replacement string. -/
theorem pyReplace_example (r : String) :
    pyReplace exTmpl portToken r = "a/" ++ r ++ "/b/" ++ r := by
  obtain ⟨rd⟩ := r
  have hlist : replaceL portToken.data rd exTmpl.data =
      'a' :: '/' :: (rd ++ '/' :: 'b' :: '/' :: (rd ++ [])) := by
    simp [replaceL, exTmpl, portToken]
  show String.mk (replaceL portToken.data rd exTmpl.data) =
    String.mk ("a/".data ++ rd ++ "/b/".data ++ rd)
  rw [hlist]
  simp

/-! ## Claim theorems -/

set_option maxRecDepth 4000

/-- C1 (counterexample): the registry bound claimed by the spec fails on
the code: a sequence of 101 GET /api/port/(port) calls for 101 distinct
ports leaves the registry holding 101 records, more than the claimed
capacity of 100, and nothing is evicted. -/
theorem C1_counterexample :
    (runCalls oracle0 ((List.range 101).map (fun i => toString (i + 1))) []).length = 101 ∧
    100 < (runCalls oracle0 ((List.range 101).map (fun i => toString (i + 1))) []).length := by
  constructor <;> decide

/-- C1 (amended): the port registry of server.py is an unbounded dict
with no eviction policy: after any sequence of getOrRefresh calls served
by port_info_handler the registry holds exactly one record per distinct
successfully parsed port, every port ever requested remains present, and
the size is therefore unbounded rather than capped at 100. -/
theorem C1_registry_unbounded (o : RefreshOracle) (calls : List String) :
    ((runCalls o calls []).map Prod.fst).Nodup ∧
    ∀ p : Int, p ∈ (runCalls o calls []).map Prod.fst ↔
      p ∈ calls.filterMap pyIntParse := by
  have h := runCalls_keys o calls [] (by simp)
  refine ⟨h.1, fun p => ?_⟩
  rw [h.2 p]
  simp

/-- C2: contrary to the claim that detect_service_config never lets an
exception past its boundary, in the environment state where the AI Studio
marker variable is present, JUPYTERHUB_SERVICE_PREFIX is absent, and a
notebook-server process is listening, the unguarded environment lookup in
check_jupyter_proxy raises a KeyError that only an ImportError handler
surrounds, so the exception escapes detect_service_config. -/
theorem C2_keyerror_escapes :
    detect_service_config true none envStudioNoHub =
      .error "KeyError: JUPYTERHUB_SERVICE_PREFIX" := rfl

/-- C3 (counterexample): the segment counts asserted by the claim for the
spec's example candidates are wrong on the code: get_path_length counts 5
and 3 non-empty segments (the port token is itself a segment), not 4 and
2. -/
theorem C3_counterexample :
    get_path_length t1ex = 5 ∧ get_path_length t2ex = 3 ∧
    get_path_length t2ex ≠ 2 ∧ get_path_length t1ex ≠ 4 := by
  refine ⟨by decide, by decide, by decide, by decide⟩

/-- C3 (amended): with a non-empty candidate list, detection selects the
candidate whose path component has the fewest non-empty slash-delimited
segments, keeping the first discovered on a tie (the embedded Python min
equals the first-minimum selection); on the spec's example candidates the
second is selected, their segment counts being 5 and 3 respectively. -/
theorem C3_selection :
    (∀ (k : String → Nat) (x : String) (l : List String),
        min_by_key k (x :: l) = (firstMinByKey k (x :: l)).getD x) ∧
    min_by_key get_path_length [t1ex, t2ex] = t2ex ∧
    get_path_length t1ex = 5 ∧ get_path_length t2ex = 3 := by
  refine ⟨fun k x l => min_by_key_eq_firstMin k l x, by decide, by decide, by decide⟩

/-- C4: the first detect_service_config call with caching enabled runs
detection and stores its result, an empty string included, and every
later cached call returns the stored value without re-probing: the result
of a call on a populated cache does not depend on the environment at
all. -/
theorem C4_cache_idempotent (env env2 : Env) (r : String)
    (h : detectOnce env = .ok r) :
    detect_service_config true none env = .ok (r, some r) ∧
    ∀ c : String, detect_service_config true (some c) env2 = .ok (c, some c) := by
  refine ⟨?_, fun c => rfl⟩
  simp [detect_service_config, Except.map, h]

/-- Witness for C4 at a concrete environment whose detection yields the
empty string, with a second environment that would detect a template:
the empty result is cached and later cached calls return it unchanged. -/
theorem C4_witness :
    detectOnce envNoPsutil = .ok "" ∧
    detect_service_config true none envNoPsutil = .ok ("", some "") ∧
    detect_service_config true (some "") envCodeServer = .ok ("", some "") :=
  ⟨rfl, (C4_cache_idempotent envNoPsutil envCodeServer "" rfl).1,
    (C4_cache_idempotent envNoPsutil envCodeServer "" rfl).2 ""⟩

/-- C5: generate_proxy_url returns the detected template with every
occurrence of the port token replaced by the decimal digits of the port,
and the empty string when no template was detected; on the spec's example
template both occurrences are substituted for every port. -/
theorem C5_token_substitution (p : Int) (env : Env) :
    generate_proxy_url p (some "") env = .ok ("", some "") ∧
    generate_proxy_url p (some exTmpl) env =
      .ok ("a/" ++ toString p ++ "/b/" ++ toString p, some exTmpl) ∧
    ∀ t : String, generate_proxy_url p (some t) env =
      .ok (pyReplace t portToken (toString p), some t) := by
  have hempty : pyReplace "" portToken (toString p) = "" := by
    show String.mk (replaceL portToken.data (toString p).data []) = ""
    have h0 : replaceL portToken.data (toString p).data ([] : List Char) = [] := by
      simp [replaceL]
    rw [h0]
  have hgen : ∀ t : String, generate_proxy_url p (some t) env =
      .ok (pyReplace t portToken (toString p), some t) := by
    intro t
    by_cases ht : t = ""
    · subst ht
      simp [generate_proxy_url, detect_service_config, Except.map, hempty]
    · simp [generate_proxy_url, detect_service_config, Except.map, ht]
  refine ⟨by rw [hgen "", hempty], ?_, hgen⟩
  rw [hgen exTmpl, pyReplace_example]

/-- C6: a getOrRefresh call arriving less than 5 seconds after a record's
last check returns that record with every field unchanged and performs no
mutation of the registry: the refresh is throttled. -/
theorem C6_throttle_frame (portStr : String) (p : Int) (o : RefreshOracle)
    (cache : PortCache) (pi : PortInfo)
    (hp : pyIntParse portStr = some p)
    (hl : cacheLookup p cache = some pi)
    (ht : o.now - pi.last_check < 5) :
    port_info_handler portStr o cache = (200, some pi, cache) := by
  have hupd : _update_port_info o pi = pi := by
    simp [_update_port_info, ht]
  simp [port_info_handler, hp, hl, hupd, cacheSet_lookup_self p pi cache hl]

/-- Witness for C6: a concrete registry holding a record checked at time
998 answers a call at time 1000 with the record and registry unchanged. -/
theorem C6_witness :
    port_info_handler "8080" oracle0 [(8080, throttledRecord)] =
      (200, some throttledRecord, [(8080, throttledRecord)]) :=
  C6_throttle_frame "8080" 8080 oracle0 [(8080, throttledRecord)] throttledRecord
    (by decide) (by decide) (by decide)

/-- C7 (counterexample): the claim that every port outside 1..65535 is
answered with status 400 fails on the code: the path segment 70000 parses
as an integer, so the handler creates a record for port 70000 and answers
200. -/
theorem C7_counterexample :
    (port_info_handler "70000" oracle0 []).1 = 200 ∧
    (port_info_handler "70000" oracle0 []).1 ≠ 400 := by
  constructor <;> decide

/-- C7 (amended): GET /api/port/(port) answers 400 exactly when the path
segment does not parse as a Python int; every parseable integer, range
checked or not, is answered 200 with that port's (fresh or refreshed)
record.  The hypothesis states the registry invariant that stored records
carry their own key as port. -/
theorem C7_parse_only_validation (portStr : String) (o : RefreshOracle)
    (cache : PortCache)
    (hwf : ∀ (q : Int) (pi : PortInfo), cacheLookup q cache = some pi → pi.port = q) :
    (pyIntParse portStr = none → port_info_handler portStr o cache = (400, none, cache)) ∧
    ∀ p : Int, pyIntParse portStr = some p →
      (port_info_handler portStr o cache).1 = 200 ∧
      ∃ pi : PortInfo, (port_info_handler portStr o cache).2.1 = some pi ∧ pi.port = p := by
  constructor
  · intro hp
    simp [port_info_handler, hp]
  · intro p hp
    rcases hl : cacheLookup p cache with _ | pi
    · refine ⟨by simp [port_info_handler, hp, hl],
        _update_port_info o (PortInfo.init p),
        by simp [port_info_handler, hp, hl], ?_⟩
      rw [update_preserves_port]
      rfl
    · refine ⟨by simp [port_info_handler, hp, hl],
        _update_port_info o pi,
        by simp [port_info_handler, hp, hl], ?_⟩
      rw [update_preserves_port]
      exact hwf p pi hl

/-- Witness for C7 at concrete inputs: an unparseable segment is answered
400, and the out-of-range segment 70000 is answered 200 with a record for
port 70000. -/
theorem C7_witness :
    port_info_handler "abc" oracle0 [] = (400, none, []) ∧
    (port_info_handler "70000" oracle0 []).1 = 200 ∧
    ∃ pi : PortInfo, (port_info_handler "70000" oracle0 []).2.1 = some pi ∧
      pi.port = 70000 := by
  have hwf : ∀ (q : Int) (pi : PortInfo), cacheLookup q ([] : PortCache) = some pi →
      pi.port = q := fun q pi h => Option.noConfusion h
  refine ⟨(C7_parse_only_validation "abc" oracle0 [] hwf).1 (by decide), ?_, ?_⟩
  · exact ((C7_parse_only_validation "70000" oracle0 [] hwf).2 70000 (by decide)).1
  · exact ((C7_parse_only_validation "70000" oracle0 [] hwf).2 70000 (by decide)).2

/-- C8: a detect_service_config call with caching disabled re-runs
detection and never writes the process-wide cache, so a later caller with
caching enabled observes the same cached value as before. -/
theorem C8_no_cache_write (env : Env) (cache : Option String) (r : String)
    (h : detectOnce env = .ok r) :
    detect_service_config false cache env = .ok (r, cache) ∧
    ∀ c : String, cache = some c → detect_service_config true cache env = .ok (c, cache) := by
  constructor
  · cases cache <;> simp [detect_service_config, Except.map, h]
  · rintro c rfl
    rfl

/-- Witness for C8: with the cache holding one value and an environment
that detects a different template, the uncached call returns the fresh
detection result while the cache keeps its old value for cached
callers. -/
theorem C8_witness :
    detect_service_config false (some "keep") envCodeServer =
      .ok ("code/\x7b\x7bport\x7d\x7d/", some "keep") ∧
    detect_service_config true (some "keep") envCodeServer =
      .ok ("keep", some "keep") :=
  ⟨(C8_no_cache_write envCodeServer (some "keep") "code/\x7b\x7bport\x7d\x7d/" rfl).1,
    (C8_no_cache_write envCodeServer (some "keep") "code/\x7b\x7bport\x7d\x7d/" rfl).2
      "keep" rfl⟩

/-- C9: the spec-modelled TunnelProxy validation rejects port 0, port
70000 and a u parameter that is missing or lacks a leading slash, each
with status 400, and accepts a slash-rooted u with an in-range port. -/
theorem C9_tunnel_validation :
    tunnel_validate "0" (some "/") = 400 ∧
    tunnel_validate "70000" (some "/") = 400 ∧
    tunnel_validate "8080" (some "relative") = 400 ∧
    tunnel_validate "8080" none = 400 ∧
    tunnel_validate "8080" (some "/") = 200 := by
  refine ⟨by decide, by decide, by decide, by decide, by decide⟩

/-- C10: after every non-throttled refresh in which the port is not
listening or no owning process resolves, all three owner fields of the
record are cleared to None, so stale owner data never survives a refresh
that cannot re-confirm it. -/
theorem C10_owner_cleared (o : RefreshOracle) (pi : PortInfo)
    (h5 : ¬ (o.now - pi.last_check < 5))
    (h : o.listening = false ∨ o.procInfo = none) :
    (_update_port_info o pi).process_pid = none ∧
    (_update_port_info o pi).process_name = none ∧
    (_update_port_info o pi).process_cmdline = none := by
  rcases h with h | h
  · simp [_update_port_info, h5, h]
  · cases hl : o.listening <;> simp [_update_port_info, h5, h, hl]

/-- Witness for C10: a concrete stale record with owner fields set is
refreshed by a non-listening probe at time 1000 and loses all three
owner fields. -/
theorem C10_witness :
    (_update_port_info oracle0
        { port := 3000, is_listening := true, process_name := some "node",
          process_pid := some 42, process_cmdline := some "node server.js",
          last_check := 0, proxy_url := none }).process_pid = none ∧
    (_update_port_info oracle0
        { port := 3000, is_listening := true, process_name := some "node",
          process_pid := some 42, process_cmdline := some "node server.js",
          last_check := 0, proxy_url := none }).process_name = none ∧
    (_update_port_info oracle0
        { port := 3000, is_listening := true, process_name := some "node",
          process_pid := some 42, process_cmdline := some "node server.js",
          last_check := 0, proxy_url := none }).process_cmdline = none :=
  C10_owner_cleared oracle0
    { port := 3000, is_listening := true, process_name := some "node",
      process_pid := some 42, process_cmdline := some "node server.js",
      last_check := 0, proxy_url := none }
    (by decide) (Or.inl rfl)

end ProxyToolkit
